import Mathlib

/-!
Shallow embedding of the MIDI byte-stream parser and thru filter of the
PianoLED repository (`src/MIDI/MIDI.hpp`, `src/MIDI/MIDI.h`, instantiated by
`src/PianoLED_2.0/PianoLED.ino`).

Bytes are modelled as `Nat` (values taken from the transport are below 256 in
every run considered).  The `MidiType` enumeration of the library maps each
enumerator to its status-byte value (the parser casts status bytes to
`MidiType` directly, via `MidiType(inStatus & 0xf0)` and `MidiType(inStatus)`,
so the numeric values are forced by the code); the enumerator values themselves
live in `midi_Defs.h`, which is not part of this repository's sources, and are
modelled from the spec's wire-format table (section 6).
-/

namespace PianoLEDMidi

/-- Modelled from the spec (section 6 wire table) together with the casts in
`getTypeFromStatusByte`: the `MidiType` enumerator values of `midi_Defs.h`
(absent from `src/`).  Each enumerator equals its status byte. -/
def InvalidType : Nat := 0x00

def NoteOff : Nat := 0x80

def NoteOn : Nat := 0x90

def AfterTouchPoly : Nat := 0xA0

def ControlChange : Nat := 0xB0

def ProgramChange : Nat := 0xC0

def AfterTouchChannel : Nat := 0xD0

def PitchBend : Nat := 0xE0

def SystemExclusive : Nat := 0xF0

def SystemExclusiveStart : Nat := 0xF0

def TimeCodeQuarterFrame : Nat := 0xF1

def SongPosition : Nat := 0xF2

def SongSelect : Nat := 0xF3

def Undefined_F4 : Nat := 0xF4

def Undefined_F5 : Nat := 0xF5

def TuneRequest : Nat := 0xF6

def SystemExclusiveEnd : Nat := 0xF7

def Clock : Nat := 0xF8

def Tick : Nat := 0xF9

def Start : Nat := 0xFA

def Continue : Nat := 0xFB

def Stop : Nat := 0xFC

def Undefined_FD : Nat := 0xFD

def ActiveSensing : Nat := 0xFE

def SystemReset : Nat := 0xFF

/-- Modelled from the spec: `MIDI_CHANNEL_OMNI` of `midi_Defs.h` (absent from
`src/`); the spec's data model lists `inputChannel` as 1-16, "omni" or "off",
with omni being channel value 0. -/
def MIDI_CHANNEL_OMNI : Nat := 0

/-- Modelled from the spec: `MIDI_CHANNEL_OFF` of `midi_Defs.h` (absent from
`src/`), the first channel value with input disabled (17). -/
def MIDI_CHANNEL_OFF : Nat := 17

/-- The decoded message, `struct Message` of `midi_Message.h` (absent from
`src/`; fields and meaning are modelled from the spec's data model, section 3,
and from how `MIDI.hpp` writes them).  `sysexArray` is the fixed-capacity
sysex buffer; its length is the capacity `Settings::SysExMaxSize`. -/
structure MidiMessage where
  type : Nat
  channel : Nat
  data1 : Nat
  data2 : Nat
  length : Nat
  valid : Bool
  sysexArray : List Nat
deriving Repr, DecidableEq

/-- A default (all-zero, invalid) message with an empty sysex buffer. -/
def emptyMsg : MidiMessage :=
  { type := 0, channel := 0, data1 := 0, data2 := 0, length := 0,
    valid := false, sysexArray := [] }

/-- The parser-state fields of `MidiInterface` that `parse()` reads and
writes: `mRunningStatus_RX`, `mPendingMessage[3]`,
`mPendingMessageExpectedLength`, `mPendingMessageIndex`, `mMessage`, and the
`ErrorParse` bit of `mLastError` (the bit position itself comes from
`midi_Defs.h`, absent from `src/`; only this one bit is touched by `parse`,
so it is modelled as a `Bool`). -/
structure ParserState where
  runningStatusRX : Nat
  pendingMessage : List Nat
  pendingMessageExpectedLength : Nat
  pendingMessageIndex : Nat
  message : MidiMessage
  errorParse : Bool
deriving Repr, DecidableEq

/-- Translation of `MidiInterface::getTypeFromStatusByte` (MIDI.hpp lines
613-627). -/
def getTypeFromStatusByte (inStatus : Nat) : Nat :=
  if inStatus < 0x80 ∨ inStatus = Undefined_F4 ∨ inStatus = Undefined_F5 ∨
      inStatus = Undefined_FD then
    InvalidType
  else if inStatus < 0xF0 then
    inStatus.land 0xF0
  else
    inStatus

/-- Translation of `MidiInterface::getChannelFromStatusByte` (MIDI.hpp lines
631-635): channel in the range 1-16. -/
def getChannelFromStatusByte (inStatus : Nat) : Nat :=
  inStatus.land 0x0F + 1

/-- Translation of `MidiInterface::isChannelMessage` (MIDI.hpp lines 637-647). -/
def isChannelMessage (inType : Nat) : Bool :=
  inType = NoteOff ∨ inType = NoteOn ∨ inType = ControlChange ∨
    inType = AfterTouchPoly ∨ inType = AfterTouchChannel ∨
    inType = PitchBend ∨ inType = ProgramChange

/-- Outcome of feeding one byte to `parse()`: how the `parse` invocation that
consumed this byte proceeds.  `msgDone` means `parse` returns `true` with the
completed message stored in `mMessage`; `needMore` means the byte was absorbed
and `parse` recurses (multi-byte mode) or returns `false` (1-byte mode);
`ignored` is the silent discard of `Undefined_FD`; `errored` means the
`ErrorParse` path ran (error callback invoked, `resetInput`, return `false`);
`overflowFlush m` means the sysex buffer filled up: `m` is the chunk passed to
`launchCallback` inside `parse`, which then returns `false`. -/
inductive ParseOutcome where
  | msgDone : ParseOutcome
  | needMore : ParseOutcome
  | ignored : ParseOutcome
  | errored : ParseOutcome
  | overflowFlush : MidiMessage → ParseOutcome
deriving Repr, DecidableEq

/-- Translation of the body of `MidiInterface::parse` (MIDI.hpp lines
182-472) acting on one extracted byte.  The clearing of the `ErrorParse` bit
(line 188) happens at the start of every `parse` call, hence once per byte
consumed (in multi-byte mode each recursion re-executes it).  The sysex
capacity `Settings::SysExMaxSize` (= `MidiMessage::sSysExMaxSize`) is the
length of `message.sysexArray`.  The C++ completion test
`mPendingMessageIndex >= (mPendingMessageExpectedLength - 1)` uses unsigned
arithmetic, which wraps around when the expected length is 0; it is rendered
as `1 ≤ expectedLength ∧ expectedLength ≤ index + 1`. -/
def parseByte (s0 : ParserState) (extracted : Nat) : ParserState × ParseOutcome :=
  let s := { s0 with errorParse := false }
  if extracted = Undefined_FD then
    (s, ParseOutcome.ignored)
  else if s.pendingMessageIndex = 0 then
    -- start a new pending message
    let s1 := { s with pendingMessage := s.pendingMessage.set 0 extracted }
    -- check for running status first
    let s2 :=
      if isChannelMessage (getTypeFromStatusByte s1.runningStatusRX) ∧ extracted < 0x80 then
        { s1 with
            pendingMessage := (s1.pendingMessage.set 0 s1.runningStatusRX).set 1 extracted,
            pendingMessageIndex := 1 }
      else s1
    let pendingType := getTypeFromStatusByte (s2.pendingMessage.getD 0 0)
    if pendingType = Start ∨ pendingType = Continue ∨ pendingType = Stop ∨
        pendingType = Clock ∨ pendingType = Tick ∨ pendingType = ActiveSensing ∨
        pendingType = SystemReset ∨ pendingType = TuneRequest then
      -- 1 byte messages: handled directly; Running Status remains unchanged
      ({ s2 with
          message := { s2.message with
            type := pendingType, channel := 0, data1 := 0, data2 := 0, valid := true },
          pendingMessageIndex := 0,
          pendingMessageExpectedLength := 0 },
        ParseOutcome.msgDone)
    else
      let s3 :=
        if pendingType = ProgramChange ∨ pendingType = AfterTouchChannel ∨
            pendingType = TimeCodeQuarterFrame ∨ pendingType = SongSelect then
          some { s2 with pendingMessageExpectedLength := 2 }
        else if pendingType = NoteOn ∨ pendingType = NoteOff ∨
            pendingType = ControlChange ∨ pendingType = PitchBend ∨
            pendingType = AfterTouchPoly ∨ pendingType = SongPosition then
          some { s2 with pendingMessageExpectedLength := 3 }
        else if pendingType = SystemExclusiveStart ∨ pendingType = SystemExclusiveEnd then
          some { s2 with
              pendingMessageExpectedLength := s2.message.sysexArray.length,
              runningStatusRX := InvalidType,
              message := { s2.message with
                sysexArray := s2.message.sysexArray.set 0 pendingType } }
        else
          none
      match s3 with
      | none =>
        -- InvalidType / default: set ErrorParse, notify, resetInput, fail
        ({ s2 with
            errorParse := true,
            pendingMessageIndex := 0,
            pendingMessageExpectedLength := 0,
            runningStatusRX := InvalidType },
          ParseOutcome.errored)
      | some s4 =>
        if 1 ≤ s4.pendingMessageExpectedLength ∧
            s4.pendingMessageExpectedLength ≤ s4.pendingMessageIndex + 1 then
          -- reception complete
          ({ s4 with
              message := { s4.message with
                type := pendingType,
                channel := getChannelFromStatusByte (s4.pendingMessage.getD 0 0),
                data1 := s4.pendingMessage.getD 1 0,
                data2 := 0,
                length := 1,
                valid := true },
              pendingMessageIndex := 0,
              pendingMessageExpectedLength := 0 },
            ParseOutcome.msgDone)
        else
          -- waiting for more data
          ({ s4 with pendingMessageIndex := s4.pendingMessageIndex + 1 },
            ParseOutcome.needMore)
  else
    -- a message is pending (mPendingMessageIndex > 0)
    if extracted = Clock ∨ extracted = Start ∨ extracted = Tick ∨
        extracted = Continue ∨ extracted = Stop ∨ extracted = ActiveSensing ∨
        extracted = SystemReset then
      -- interleaved Real Time message: pending state left as is
      ({ s with
          message := { s.message with
            type := extracted, data1 := 0, data2 := 0, channel := 0,
            length := 1, valid := true } },
        ParseOutcome.msgDone)
    else if extracted = SystemExclusiveStart ∨ extracted = SystemExclusiveEnd then
      if s.message.sysexArray.getD 0 0 = SystemExclusiveStart ∨
          s.message.sysexArray.getD 0 0 = SystemExclusiveEnd then
        -- store the last byte (EOX) and finish the sysex message
        let idx1 := s.pendingMessageIndex + 1
        ({ s with
            message := { s.message with
              sysexArray := s.message.sysexArray.set s.pendingMessageIndex extracted,
              type := SystemExclusive,
              data1 := idx1 % 256,
              data2 := idx1 / 256 % 256,
              channel := 0,
              length := idx1,
              valid := true },
            pendingMessageIndex := 0,
            pendingMessageExpectedLength := 0,
            runningStatusRX := InvalidType },
          ParseOutcome.msgDone)
      else
        ({ s with
            errorParse := true,
            pendingMessageIndex := 0,
            pendingMessageExpectedLength := 0,
            runningStatusRX := InvalidType },
          ParseOutcome.errored)
    else
      -- add extracted data byte to pending message (any other status byte
      -- falls through the switch's default and lands here too)
      let isSysex := s.pendingMessage.getD 0 0 = SystemExclusiveStart ∨
        s.pendingMessage.getD 0 0 = SystemExclusiveEnd
      let s5 :=
        if isSysex then
          { s with message := { s.message with
              sysexArray := s.message.sysexArray.set s.pendingMessageIndex extracted } }
        else
          { s with pendingMessage := s.pendingMessage.set s.pendingMessageIndex extracted }
      if 1 ≤ s5.pendingMessageExpectedLength ∧
          s5.pendingMessageExpectedLength ≤ s5.pendingMessageIndex + 1 then
        if isSysex then
          -- sysex larger than the allocated buffer size: flush a chunk
          let cap := s5.message.sysexArray.length
          let lastByte := s5.message.sysexArray.getD (cap - 1) 0
          let arr1 := s5.message.sysexArray.set (cap - 1) SystemExclusiveStart
          let emitted : MidiMessage :=
            { s5.message with
                sysexArray := arr1,
                type := SystemExclusive,
                data1 := cap % 256,
                data2 := cap / 256 % 256,
                channel := 0,
                length := cap,
                valid := true }
          -- launchCallback(emitted), then re-prime for the next chunk
          ({ s5 with
              message := { emitted with
                sysexArray := (arr1.set 0 SystemExclusiveEnd).set 1 lastByte },
              pendingMessageIndex := 2 },
            ParseOutcome.overflowFlush emitted)
        else
          -- non-sysex message complete
          let newType := getTypeFromStatusByte (s5.pendingMessage.getD 0 0)
          ({ s5 with
              message := { s5.message with
                type := newType,
                channel :=
                  if isChannelMessage newType then
                    getChannelFromStatusByte (s5.pendingMessage.getD 0 0)
                  else 0,
                data1 := s5.pendingMessage.getD 1 0,
                data2 :=
                  if s5.pendingMessageExpectedLength = 3 then
                    s5.pendingMessage.getD 2 0
                  else 0,
                valid := true },
              pendingMessageIndex := 0,
              pendingMessageExpectedLength := 0,
              runningStatusRX :=
                if isChannelMessage newType then s5.pendingMessage.getD 0 0
                else InvalidType },
            ParseOutcome.msgDone)
      else
        ({ s5 with pendingMessageIndex := s5.pendingMessageIndex + 1 },
          ParseOutcome.needMore)

/-- The parser state right after `begin()` (MIDI.hpp lines 57-84) with sysex
buffer capacity `cap`: pending counters zeroed, both running-status registers
invalid, `mMessage` cleared.  The sysex array starts zero-filled (the
`Message` constructor of `midi_Message.h`, absent from `src/`, zero-fills it;
modelled from the spec's "bounded byte buffer"). -/
def beginState (cap : Nat) : ParserState :=
  { runningStatusRX := InvalidType,
    pendingMessage := [0, 0, 0],
    pendingMessageExpectedLength := 0,
    pendingMessageIndex := 0,
    message := { type := InvalidType, channel := 0, data1 := 0, data2 := 0,
                 length := 0, valid := false,
                 sysexArray := List.replicate cap 0 },
    errorParse := false }

/-- Observable events produced while parsing: `emitted m` is a completed
message returned by `parse` (`parse` returned `true` with `m` stored in
`mMessage`); `flushed m` is a sysex chunk delivered through `launchCallback`
from inside the overflow branch of `parse`; `errCall` is an invocation of the
error callback. -/
inductive MidiEvent where
  | emitted : MidiMessage → MidiEvent
  | flushed : MidiMessage → MidiEvent
  | errCall : MidiEvent
deriving Repr, DecidableEq

/-- Feed a list of bytes through the parser one at a time, collecting the
events.  This is the sequence of observable results over repeated `read()`
calls that eventually drain the given transport bytes (in both 1-byte and
multi-byte parsing modes the per-byte state transitions and emissions are the
same; only the grouping into `read()` calls differs). -/
def processBytes : ParserState → List Nat → ParserState × List MidiEvent
  | s, [] => (s, [])
  | s, b :: rest =>
    let r := parseByte s b
    let evs : List MidiEvent :=
      match r.2 with
      | ParseOutcome.msgDone => [MidiEvent.emitted r.1.message]
      | ParseOutcome.overflowFlush m => [MidiEvent.flushed m]
      | ParseOutcome.errored => [MidiEvent.errCall]
      | _ => []
    let rec' := processBytes r.1 rest
    (rec'.1, evs ++ rec'.2)

/-- The messages delivered by a list of events (both completed messages and
sysex chunks flushed through the callback). -/
def eventMessages : List MidiEvent → List MidiMessage
  | [] => []
  | MidiEvent.emitted m :: r => m :: eventMessages r
  | MidiEvent.flushed m :: r => m :: eventMessages r
  | MidiEvent.errCall :: r => eventMessages r

/-- Only the sysex chunks flushed through `launchCallback` inside `parse`. -/
def flushedMessages : List MidiEvent → List MidiMessage
  | [] => []
  | MidiEvent.flushed m :: r => m :: flushedMessages r
  | _ :: r => flushedMessages r

/-- Logical payload of a sysex message: the first `length` bytes of the
buffer (`mMessage.length`, also encoded in `data1`/`data2`). -/
def sysexPayload (m : MidiMessage) : List Nat :=
  m.sysexArray.take m.length

/-- The `Thru::Mode` enumeration (`midi_Defs.h`, absent from `src/`; modelled
from the spec: Off, Full, SameChannel, DifferentChannel). -/
inductive ThruMode where
  | off : ThruMode
  | full : ThruMode
  | sameChannel : ThruMode
  | differentChannel : ThruMode
deriving Repr, DecidableEq

/-- The send-path action chosen by `thruFilter`.  The send functions
themselves (`send`, `sendRealTime`, `sendSysEx`, `sendSongSelect`,
`sendSongPosition`, `sendTimeCodeQuarterFrame`) are not part of this
repository's sources, so the forwarding decision is recorded as the call the
filter makes, with the arguments the filter passes. -/
inductive ThruAction where
  | sendMsg : Nat → Nat → Nat → Nat → ThruAction
  | sendRealTime : Nat → ThruAction
  | sendSysExAct : Nat → List Nat → ThruAction
  | sendSongSelect : Nat → ThruAction
  | sendSongPosition : Nat → ThruAction
  | sendTimeCodeQuarterFrame : Nat → Nat → ThruAction
deriving Repr, DecidableEq

/-- Modelled from the spec: `sendRealTime` (absent from `src/`) frames a
real-time/1-byte message as its single status byte on the wire. -/
def sendRealTimeWire (t : Nat) : List Nat := [t]

/-- Modelled from the spec: `Message::getSysExSize()` of `midi_Message.h`
(absent from `src/`): the logical sysex length is coded with `data1` as LSB
and `data2` as MSB, clamped to the buffer capacity. -/
def getSysExSize (m : MidiMessage) : Nat :=
  min (m.data2 * 256 + m.data1) m.sysexArray.length

/-- Translation of `MidiInterface::thruFilter` (MIDI.hpp lines 891-975),
returning the send call the filter makes (or `none`).  `act` is
`mThruActivated`, `mode` is `mThruFilterMode`, `inChannel` the channel
`read()` was called with. -/
def thruFilterFn (act : Bool) (mode : ThruMode) (inChannel : Nat)
    (m : MidiMessage) : Option ThruAction :=
  if act = false ∨ mode = ThruMode.off then
    none
  else if NoteOff ≤ m.type ∧ m.type ≤ PitchBend then
    -- channel message
    let filterCondition := m.channel = inChannel ∨ inChannel = MIDI_CHANNEL_OMNI
    match mode with
    | ThruMode.full =>
      some (ThruAction.sendMsg m.type m.data1 m.data2 m.channel)
    | ThruMode.sameChannel =>
      if filterCondition then
        some (ThruAction.sendMsg m.type m.data1 m.data2 m.channel)
      else none
    | ThruMode.differentChannel =>
      if ¬filterCondition then
        some (ThruAction.sendMsg m.type m.data1 m.data2 m.channel)
      else none
    | ThruMode.off => none
  else
    -- system message
    if m.type = Clock ∨ m.type = Start ∨ m.type = Stop ∨ m.type = Continue ∨
        m.type = ActiveSensing ∨ m.type = SystemReset ∨ m.type = TuneRequest then
      some (ThruAction.sendRealTime m.type)
    else if m.type = SystemExclusive then
      some (ThruAction.sendSysExAct (getSysExSize m) m.sysexArray)
    else if m.type = SongSelect then
      some (ThruAction.sendSongSelect m.data1)
    else if m.type = SongPosition then
      some (ThruAction.sendSongPosition (m.data1 + m.data2 * 128))
    else if m.type = TimeCodeQuarterFrame then
      some (ThruAction.sendTimeCodeQuarterFrame m.data1 m.data2)
    else
      none

/-- Translation of `MidiInterface::handleNullVelocityNoteOnAsNoteOff`
(MIDI.hpp lines 475-483).  `Settings::HandleNullVelocityNoteOnAsNoteOff` is
`true` (default settings of `midi_Settings.h`, absent from `src/`; the sketch
does not override it). -/
def handleNullVelocityNoteOnAsNoteOff (m : MidiMessage) : MidiMessage :=
  if m.type = NoteOn ∧ m.data2 = 0 then { m with type := NoteOff } else m

/-- Translation of `MidiInterface::inputFilter` (MIDI.hpp lines 486-512):
channel messages pass iff the channel matches or the listening channel is
omni; system messages always pass. -/
def inputFilter (m : MidiMessage) (inChannel : Nat) : Bool :=
  if NoteOff ≤ m.type ∧ m.type ≤ PitchBend then
    m.channel = inChannel ∨ inChannel = MIDI_CHANNEL_OMNI
  else
    true

/-- One `parse()` call in multi-byte mode (`Settings::Use1ByteParsing` is
`false` in the default settings; the sketch does not override it): consume
bytes until a message completes (`true`), an error or overflow flush occurs
(`false`), or the transport runs dry (`false`).  Returns the final state,
the unconsumed bytes, the boolean `parse` returns, and the events observed. -/
def parseRun : ParserState → List Nat → ParserState × List Nat × Bool × List MidiEvent
  | s, [] => (s, [], false, [])
  | s, b :: rest =>
    let r := parseByte s b
    match r.2 with
    | ParseOutcome.msgDone => (r.1, rest, true, [MidiEvent.emitted r.1.message])
    | ParseOutcome.errored => (r.1, rest, false, [MidiEvent.errCall])
    | ParseOutcome.overflowFlush m => (r.1, rest, false, [MidiEvent.flushed m])
    | ParseOutcome.ignored => parseRun r.1 rest
    | ParseOutcome.needMore => parseRun r.1 rest

/-- Result of one `read(inChannel)` call: the returned boolean, the new
parser state, the bytes left in the transport, the messages on which
`launchCallback` ran (sysex overflow chunks flushed inside `parse`, then the
completed message when the channel filter accepted it), and the thru-filter
send action. -/
structure ReadResult where
  retval : Bool
  state : ParserState
  transport : List Nat
  launched : List MidiMessage
  thru : Option ThruAction
deriving Repr, DecidableEq

/-- Translation of `MidiInterface::read(Channel)` (MIDI.hpp lines 110-176)
with the default settings of the sketch (`UseSenderActiveSensing` and
`UseReceiverActiveSensing` are `false`, so the active-sensing blocks are
skipped).  If the listening channel is `MIDI_CHANNEL_OFF` or above, input is
disabled before the transport is touched. -/
def readCh (inChannel : Nat) (act : Bool) (mode : ThruMode)
    (s : ParserState) (input : List Nat) : ReadResult :=
  if MIDI_CHANNEL_OFF ≤ inChannel then
    { retval := false, state := s, transport := input, launched := [], thru := none }
  else
    let pr := parseRun s input
    let flushLaunched := flushedMessages pr.2.2.2
    if pr.2.2.1 = false then
      { retval := false, state := pr.1, transport := pr.2.1,
        launched := flushLaunched, thru := none }
    else
      let s1 := pr.1
      let m1 := handleNullVelocityNoteOnAsNoteOff s1.message
      let s2 := { s1 with message := m1 }
      let channelMatch := inputFilter m1 inChannel
      { retval := channelMatch,
        state := s2,
        transport := pr.2.1,
        launched := flushLaunched ++ (if channelMatch then [m1] else []),
        thru := thruFilterFn act mode inChannel m1 }

/-- The `NoteOn` case of `launchCallback` (MIDI.hpp lines 741-743): the
arguments `(channel, data1, data2)` passed to the registered `NoteOn`
handler, or `none` when the message is not a `NoteOn`. -/
def noteOnArgs (m : MidiMessage) : Option (Nat × Nat × Nat) :=
  if m.type = NoteOn then some (m.channel, m.data1, m.data2) else none

/-- The parser state while a sysex stream begun by 0xF0 is being
accumulated: the pending buffer holds [0xF0, 0, 0], the expected length is
the capacity, running status is cleared, and `i` is the pending index. -/
def sysexRunState (cap : Nat) (msg : MidiMessage) (i : Nat) : ParserState :=
  { runningStatusRX := InvalidType,
    pendingMessage := [0xF0, 0, 0],
    pendingMessageExpectedLength := cap,
    pendingMessageIndex := i,
    message := msg,
    errorParse := false }

/-- The data bytes of the sysex buffer that are filled but not yet flushed:
positions 1 to i-1 of the buffer (position 0 holds the 0xF0/0xF7 marker). -/
def window (l : List Nat) (i : Nat) : List Nat :=
  (l.take i).drop 1

/-- Concatenation of the logical payloads of all messages delivered by a
list of events. -/
def flatPayloads (evs : List MidiEvent) : List Nat :=
  ((eventMessages evs).map sysexPayload).flatten

/-- C4: starting from a freshly-begun parser (capacity 2, as the sketch
instantiates it), feeding [0x90, 0xF8, 60, 100] yields exactly two messages in
order: first a Clock message emitted when 0xF8 is read, with the pending
NoteOn state (pending buffer, index, expected length, running status) left
undisturbed by that byte, and then a valid NoteOn with channel 1, data1 = 60,
data2 = 100. -/
theorem c4_realtime_interleaving :
    (eventMessages (processBytes (beginState 2) [0x90, 0xF8, 60, 100]).2).length = 2 ∧
    ((eventMessages (processBytes (beginState 2) [0x90, 0xF8, 60, 100]).2).getD 0
        emptyMsg).type = Clock ∧
    ((eventMessages (processBytes (beginState 2) [0x90, 0xF8, 60, 100]).2).getD 0
        emptyMsg).valid = true ∧
    ((eventMessages (processBytes (beginState 2) [0x90, 0xF8, 60, 100]).2).getD 1
        emptyMsg) =
      { type := NoteOn, channel := 1, data1 := 60, data2 := 100, length := 1,
        valid := true, sysexArray := [0, 0] } ∧
    (parseByte (processBytes (beginState 2) [0x90]).1 0xF8).2 = ParseOutcome.msgDone ∧
    (parseByte (processBytes (beginState 2) [0x90]).1 0xF8).1.pendingMessage =
      (processBytes (beginState 2) [0x90]).1.pendingMessage ∧
    (parseByte (processBytes (beginState 2) [0x90]).1 0xF8).1.pendingMessageIndex =
      (processBytes (beginState 2) [0x90]).1.pendingMessageIndex ∧
    (parseByte (processBytes (beginState 2) [0x90]).1 0xF8).1.pendingMessageExpectedLength =
      (processBytes (beginState 2) [0x90]).1.pendingMessageExpectedLength ∧
    (parseByte (processBytes (beginState 2) [0x90]).1 0xF8).1.runningStatusRX =
      (processBytes (beginState 2) [0x90]).1.runningStatusRX := by
  decide

/-- C5: starting from a freshly-begun parser (capacity 2, as the sketch
instantiates it), feeding [0x90, 60, 100] followed by [61, 110] with no
intervening status byte yields two valid NoteOn messages on channel 1, the
first with data1 = 60, data2 = 100 and the second with data1 = 61,
data2 = 110 (receive-side running status). -/
theorem c5_running_status :
    (eventMessages (processBytes (beginState 2) [0x90, 60, 100, 61, 110]).2).length = 2 ∧
    ((eventMessages (processBytes (beginState 2) [0x90, 60, 100, 61, 110]).2).getD 0
        emptyMsg).type = NoteOn ∧
    ((eventMessages (processBytes (beginState 2) [0x90, 60, 100, 61, 110]).2).getD 0
        emptyMsg).channel = 1 ∧
    ((eventMessages (processBytes (beginState 2) [0x90, 60, 100, 61, 110]).2).getD 0
        emptyMsg).data1 = 60 ∧
    ((eventMessages (processBytes (beginState 2) [0x90, 60, 100, 61, 110]).2).getD 0
        emptyMsg).data2 = 100 ∧
    ((eventMessages (processBytes (beginState 2) [0x90, 60, 100, 61, 110]).2).getD 0
        emptyMsg).valid = true ∧
    ((eventMessages (processBytes (beginState 2) [0x90, 60, 100, 61, 110]).2).getD 1
        emptyMsg).type = NoteOn ∧
    ((eventMessages (processBytes (beginState 2) [0x90, 60, 100, 61, 110]).2).getD 1
        emptyMsg).channel = 1 ∧
    ((eventMessages (processBytes (beginState 2) [0x90, 60, 100, 61, 110]).2).getD 1
        emptyMsg).data1 = 61 ∧
    ((eventMessages (processBytes (beginState 2) [0x90, 60, 100, 61, 110]).2).getD 1
        emptyMsg).data2 = 110 ∧
    ((eventMessages (processBytes (beginState 2) [0x90, 60, 100, 61, 110]).2).getD 1
        emptyMsg).valid = true := by
  decide

/-- C6 counterexample: with no message in progress and no running status
(fresh parser), reading the undefined status byte 0xF4 is NOT silently
discarded: the parse-error flag is set and the error callback is invoked
(the events of the run contain the error-callback invocation). -/
theorem c6_counterexample :
    (processBytes (beginState 2) [0xF4]).1.errorParse = true ∧
    (processBytes (beginState 2) [0xF4]).2 = [MidiEvent.errCall] := by
  decide

/-- C6 (amended): for every parser state with no message in progress
(pendingIndex = 0) and no channel-message running status, reading 0xF4
produces no message, sets the parse-error flag, invokes the error callback if
registered, and resets the pending-message and running-status state (only
0xFD is silently discarded). -/
theorem c6_f4_parse_error (s : ParserState)
    (hidx : s.pendingMessageIndex = 0)
    (hrs : isChannelMessage (getTypeFromStatusByte s.runningStatusRX) = false) :
    (parseByte s 0xF4).2 = ParseOutcome.errored ∧
    (parseByte s 0xF4).1.errorParse = true ∧
    (parseByte s 0xF4).1.pendingMessageIndex = 0 ∧
    (parseByte s 0xF4).1.pendingMessageExpectedLength = 0 ∧
    (parseByte s 0xF4).1.runningStatusRX = InvalidType ∧
    (parseByte s 0xF4).1.message = s.message := by
  obtain ⟨rs, pm, el, ix, msg, ep⟩ := s
  simp only [ParserState.pendingMessageIndex] at hidx
  subst hidx
  rcases pm with _ | ⟨a, t⟩ <;>
    simp [parseByte, getTypeFromStatusByte, isChannelMessage, InvalidType,
      Undefined_F4, Undefined_F5, Undefined_FD, Start, Continue, Stop, Clock,
      Tick, ActiveSensing, SystemReset, TuneRequest, ProgramChange,
      AfterTouchChannel, TimeCodeQuarterFrame, SongSelect, NoteOn, NoteOff,
      ControlChange, PitchBend, AfterTouchPoly, SongPosition,
      SystemExclusiveStart, SystemExclusiveEnd]

/-- C6 witness: the amended C6 theorem instantiated at the freshly-begun
parser of capacity 2. -/
theorem c6_f4_parse_error_witness :
    ((beginState 2).pendingMessageIndex = 0 ∧
      isChannelMessage (getTypeFromStatusByte (beginState 2).runningStatusRX) = false) ∧
    ((parseByte (beginState 2) 0xF4).2 = ParseOutcome.errored ∧
      (parseByte (beginState 2) 0xF4).1.errorParse = true ∧
      (parseByte (beginState 2) 0xF4).1.pendingMessageIndex = 0 ∧
      (parseByte (beginState 2) 0xF4).1.pendingMessageExpectedLength = 0 ∧
      (parseByte (beginState 2) 0xF4).1.runningStatusRX = InvalidType ∧
      (parseByte (beginState 2) 0xF4).1.message = (beginState 2).message) :=
  ⟨⟨by decide, by decide⟩, c6_f4_parse_error (beginState 2) (by decide) (by decide)⟩

/-- C1 counterexample: with a NoteOn in progress (after reading 0x90 from a
fresh parser, pendingIndex = 1), reading the midstream status byte 0x91
(neither real-time nor 0xF0/0xF7) does NOT raise a parse error and does not
reset the pending state: the byte is absorbed as a data byte and the parser
keeps waiting for more data. -/
theorem c1_counterexample :
    (parseByte (processBytes (beginState 2) [0x90]).1 0x91).1.errorParse = false ∧
    (parseByte (processBytes (beginState 2) [0x90]).1 0x91).2 = ParseOutcome.needMore ∧
    (parseByte (processBytes (beginState 2) [0x90]).1 0x91).1.pendingMessageIndex = 2 ∧
    (parseByte (processBytes (beginState 2) [0x90]).1 0x91).1.pendingMessage =
      [0x90, 0x91, 0] := by
  decide

/-- C1 (amended): for every parser state with a multi-byte non-sysex message
in progress (pendingIndex > 0 and the pending status byte is not SysEx
start/end), if the next byte is a status byte (>= 0x80) that is neither one of
the seven real-time bytes nor 0xF0/0xF7 (nor the always-discarded 0xFD), then
parse does NOT flag a protocol error: it stores the byte as a data byte of the
pending message (advancing the index, or completing the message if the
expected length is reached); the parse-error flag is left clear. -/
theorem c1_midstream_status_as_data (s : ParserState) (b : Nat)
    (hpend : s.pendingMessageIndex ≠ 0)
    (hp0 : s.pendingMessage.getD 0 0 ≠ SystemExclusiveStart)
    (hp0' : s.pendingMessage.getD 0 0 ≠ SystemExclusiveEnd)
    (_hb : 0x80 ≤ b)
    (hrt : b ≠ Clock ∧ b ≠ Start ∧ b ≠ Tick ∧ b ≠ Continue ∧ b ≠ Stop ∧
      b ≠ ActiveSensing ∧ b ≠ SystemReset)
    (hsx : b ≠ SystemExclusiveStart ∧ b ≠ SystemExclusiveEnd)
    (hfd : b ≠ Undefined_FD) :
    (parseByte s b).1.errorParse = false ∧
    (parseByte s b).2 ≠ ParseOutcome.errored ∧
    ((parseByte s b).2 = ParseOutcome.needMore ∧
        (parseByte s b).1.pendingMessage = s.pendingMessage.set s.pendingMessageIndex b ∧
        (parseByte s b).1.pendingMessageIndex = s.pendingMessageIndex + 1 ∨
      (parseByte s b).2 = ParseOutcome.msgDone) := by
  obtain ⟨hc, hst, htk, hco, hsp, has, hsr⟩ := hrt
  obtain ⟨hx0, hx7⟩ := hsx
  simp only [Clock, Start, Tick, Continue, Stop, ActiveSensing, SystemReset,
    SystemExclusiveStart, SystemExclusiveEnd,
    Undefined_FD] at hc hst htk hco hsp has hsr hx0 hx7 hfd hp0 hp0'
  have hps : ¬(s.pendingMessage.getD 0 0 = 240 ∨ s.pendingMessage.getD 0 0 = 247) :=
    not_or.mpr ⟨hp0, hp0'⟩
  simp only [parseByte, Clock, Start, Tick, Continue, Stop, ActiveSensing,
    SystemReset, SystemExclusiveStart, SystemExclusiveEnd, Undefined_FD,
    if_neg hfd, if_neg hpend,
    if_neg (by simp [hc, hst, htk, hco, hsp, has, hsr] :
      ¬(b = 248 ∨ b = 250 ∨ b = 249 ∨ b = 251 ∨ b = 252 ∨ b = 254 ∨ b = 255)),
    if_neg (by simp [hx0, hx7] : ¬(b = 240 ∨ b = 247)),
    if_neg hps]
  split
  · exact ⟨rfl, by simp, Or.inr rfl⟩
  · exact ⟨rfl, by simp, Or.inl ⟨rfl, rfl, rfl⟩⟩

/-- C1 witness: the amended C1 theorem instantiated at the state with a
NoteOn in progress and the midstream status byte 0x91. -/
theorem c1_midstream_status_as_data_witness :
    ((processBytes (beginState 2) [0x90]).1.pendingMessageIndex ≠ 0 ∧
      (processBytes (beginState 2) [0x90]).1.pendingMessage.getD 0 0 ≠ SystemExclusiveStart ∧
      0x80 ≤ 0x91) ∧
    ((parseByte (processBytes (beginState 2) [0x90]).1 0x91).1.errorParse = false ∧
      (parseByte (processBytes (beginState 2) [0x90]).1 0x91).2 ≠ ParseOutcome.errored ∧
      ((parseByte (processBytes (beginState 2) [0x90]).1 0x91).2 = ParseOutcome.needMore ∧
          (parseByte (processBytes (beginState 2) [0x90]).1 0x91).1.pendingMessage =
            (processBytes (beginState 2) [0x90]).1.pendingMessage.set
              (processBytes (beginState 2) [0x90]).1.pendingMessageIndex 0x91 ∧
          (parseByte (processBytes (beginState 2) [0x90]).1 0x91).1.pendingMessageIndex =
            (processBytes (beginState 2) [0x90]).1.pendingMessageIndex + 1 ∨
        (parseByte (processBytes (beginState 2) [0x90]).1 0x91).2 = ParseOutcome.msgDone)) :=
  ⟨⟨by decide, by decide, by decide⟩,
    c1_midstream_status_as_data (processBytes (beginState 2) [0x90]).1 0x91
      (by decide) (by decide) (by decide) (by decide)
      ⟨by decide, by decide, by decide, by decide, by decide, by decide, by decide⟩
      ⟨by decide, by decide⟩ (by decide)⟩

/-- C7: when the input channel is 3 and a complete NoteOn on channel 5
(bytes [0x94, 60, 100]) is parsed, the message is stored with valid = true
but no NoteOn callback is dispatched (launchCallback never runs) and read
returns false; when the input channel is OMNI, the same message is
dispatched to the NoteOn callback with arguments (5, 60, 100) and read
returns true. -/
theorem c7_channel_filter :
    (readCh 3 true ThruMode.full (beginState 2) [0x94, 60, 100]).retval = false ∧
    (readCh 3 true ThruMode.full (beginState 2) [0x94, 60, 100]).state.message.valid = true ∧
    (readCh 3 true ThruMode.full (beginState 2) [0x94, 60, 100]).state.message.type = NoteOn ∧
    (readCh 3 true ThruMode.full (beginState 2) [0x94, 60, 100]).state.message.channel = 5 ∧
    (readCh 3 true ThruMode.full (beginState 2) [0x94, 60, 100]).launched = [] ∧
    (readCh 0 true ThruMode.full (beginState 2) [0x94, 60, 100]).retval = true ∧
    ((readCh 0 true ThruMode.full (beginState 2) [0x94, 60, 100]).launched.map noteOnArgs) =
      [some (5, 60, 100)] := by
  decide

/-- C10: for every call to read with the listening channel at or above
MIDI_CHANNEL_OFF, read returns false, the transport is never polled (the
byte stream is returned unconsumed; in `readCh` the transport is only
accessed after the channel test), no callback is launched, nothing is
forwarded, and the parser state is returned unchanged. -/
theorem c10_read_off_no_effect (ch : Nat) (act : Bool) (mode : ThruMode)
    (s : ParserState) (input : List Nat) (h : MIDI_CHANNEL_OFF ≤ ch) :
    readCh ch act mode s input =
      { retval := false, state := s, transport := input, launched := [], thru := none } := by
  simp [readCh, if_pos h]

/-- C10 witness: the C10 theorem instantiated at channel 17 (the OFF value)
on a fresh parser with bytes pending in the transport. -/
theorem c10_read_off_no_effect_witness :
    MIDI_CHANNEL_OFF ≤ 17 ∧
    readCh 17 true ThruMode.full (beginState 2) [0x90, 60, 100] =
      { retval := false, state := beginState 2, transport := [0x90, 60, 100],
        launched := [], thru := none } :=
  ⟨by decide,
    c10_read_off_no_effect 17 true ThruMode.full (beginState 2) [0x90, 60, 100] (by decide)⟩

/-- C8 counterexample: a completed Tick message (type 0xF9) with thru
activated and filter mode Full is NOT forwarded by the thru filter: the
filter performs no send call for it. -/
theorem c8_counterexample :
    thruFilterFn true ThruMode.full 1
      { type := Tick, channel := 0, data1 := 0, data2 := 0, length := 1,
        valid := true, sysexArray := [0, 0] } = none := by
  decide

/-- C8 (amended): for every completed one-byte real-time system message
except Tick (i.e. Clock, Start, Continue, Stop, ActiveSensing, SystemReset)
and for TuneRequest, if thru is activated and the filter mode is not Off, the
thru filter always forwards the message via sendRealTime, framed as its
single status byte; Tick messages are dropped by the filter's default case. -/
theorem c8_realtime_always_forwarded (m : MidiMessage) (mode : ThruMode) (ch : Nat)
    (ht : m.type = Clock ∨ m.type = Start ∨ m.type = Continue ∨ m.type = Stop ∨
      m.type = ActiveSensing ∨ m.type = SystemReset ∨ m.type = TuneRequest)
    (hm : mode ≠ ThruMode.off) :
    thruFilterFn true mode ch m = some (ThruAction.sendRealTime m.type) ∧
    sendRealTimeWire m.type = [m.type] := by
  refine ⟨?_, rfl⟩
  have hrange : ¬(NoteOff ≤ m.type ∧ m.type ≤ PitchBend) := by
    rcases ht with h | h | h | h | h | h | h <;>
      simp [h, NoteOff, PitchBend, Clock, Start, Continue, Stop, ActiveSensing,
        SystemReset, TuneRequest]
  have hsys : m.type = Clock ∨ m.type = Start ∨ m.type = Stop ∨ m.type = Continue ∨
      m.type = ActiveSensing ∨ m.type = SystemReset ∨ m.type = TuneRequest := by
    tauto
  simp [thruFilterFn, hm, hrange, hsys]

/-- C8 witness: the amended C8 theorem instantiated at a completed Clock
message with filter mode Full. -/
theorem c8_realtime_always_forwarded_witness :
    ((Clock = Clock ∨ False) ∧ ThruMode.full ≠ ThruMode.off) ∧
    (thruFilterFn true ThruMode.full 1
        { type := Clock, channel := 0, data1 := 0, data2 := 0, length := 1,
          valid := true, sysexArray := [0, 0] } =
      some (ThruAction.sendRealTime Clock) ∧
      sendRealTimeWire Clock = [Clock]) :=
  ⟨⟨Or.inl rfl, by decide⟩,
    c8_realtime_always_forwarded
      { type := Clock, channel := 0, data1 := 0, data2 := 0, length := 1,
        valid := true, sysexArray := [0, 0] } ThruMode.full 1 (Or.inl rfl) (by decide)⟩

/-- C9: for every completed channel message (type in the NoteOff..PitchBend
status range) with thru activated: in Full mode it is re-sent to the output
unconditionally; in SameChannel mode it is re-sent iff its channel equals the
listening channel or the listening channel is OMNI; in DifferentChannel mode
it is re-sent iff that condition is false. -/
theorem c9_thru_channel_modes (m : MidiMessage) (ch : Nat)
    (h1 : NoteOff ≤ m.type) (h2 : m.type ≤ PitchBend) :
    thruFilterFn true ThruMode.full ch m =
      some (ThruAction.sendMsg m.type m.data1 m.data2 m.channel) ∧
    thruFilterFn true ThruMode.sameChannel ch m =
      (if m.channel = ch ∨ ch = MIDI_CHANNEL_OMNI then
        some (ThruAction.sendMsg m.type m.data1 m.data2 m.channel)
      else none) ∧
    thruFilterFn true ThruMode.differentChannel ch m =
      (if m.channel = ch ∨ ch = MIDI_CHANNEL_OMNI then none
      else some (ThruAction.sendMsg m.type m.data1 m.data2 m.channel)) := by
  refine ⟨?_, ?_, ?_⟩ <;> simp only [thruFilterFn, if_pos (And.intro h1 h2)]
  · simp
  · split <;> simp_all
  · by_cases hcond : m.channel = ch ∨ ch = MIDI_CHANNEL_OMNI
    · have hno : ¬(¬m.channel = ch ∧ ¬ch = MIDI_CHANNEL_OMNI) := by tauto
      simp [hcond, hno]
    · have hyes : ¬m.channel = ch ∧ ¬ch = MIDI_CHANNEL_OMNI := not_or.mp hcond
      simp [hcond, hyes]

/-- C9 witness: the C9 theorem instantiated at a NoteOn on channel 5 with
listening channel 3 (forwarded by Full and DifferentChannel, dropped by
SameChannel). -/
theorem c9_thru_channel_modes_witness :
    (NoteOff ≤ NoteOn ∧ NoteOn ≤ PitchBend) ∧
    (thruFilterFn true ThruMode.full 3
        { type := NoteOn, channel := 5, data1 := 60, data2 := 100, length := 1,
          valid := true, sysexArray := [0, 0] } =
      some (ThruAction.sendMsg NoteOn 60 100 5) ∧
      thruFilterFn true ThruMode.sameChannel 3
        { type := NoteOn, channel := 5, data1 := 60, data2 := 100, length := 1,
          valid := true, sysexArray := [0, 0] } =
      (if (5 : Nat) = 3 ∨ (3 : Nat) = MIDI_CHANNEL_OMNI then
        some (ThruAction.sendMsg NoteOn 60 100 5)
      else none) ∧
      thruFilterFn true ThruMode.differentChannel 3
        { type := NoteOn, channel := 5, data1 := 60, data2 := 100, length := 1,
          valid := true, sysexArray := [0, 0] } =
      (if (5 : Nat) = 3 ∨ (3 : Nat) = MIDI_CHANNEL_OMNI then none
      else some (ThruAction.sendMsg NoteOn 60 100 5))) :=
  ⟨⟨by decide, by decide⟩,
    c9_thru_channel_modes
      { type := NoteOn, channel := 5, data1 := 60, data2 := 100, length := 1,
        valid := true, sysexArray := [0, 0] } 3 (by decide) (by decide)⟩

theorem take_set_succ (l : List Nat) (i d : Nat) (h : i < l.length) :
    (l.set i d).take (i + 1) = l.take i ++ [d] := by
  induction l generalizing i with
  | nil => simp at h
  | cons a t ih =>
    cases i with
    | zero => simp
    | succ j =>
      have hj : j < t.length := by simpa using h
      simp [List.set, ih j hj]

theorem take_set_ge (l : List Nat) (i n d : Nat) (h : n ≤ i) :
    (l.set i d).take n = l.take n := by
  rw [List.set_take]
  refine List.set_eq_of_length_le ?_
  simp only [List.length_take]
  omega

/-- C3 counterexample: with capacity 3, feeding [0xF0, 1, 2] fills the sysex
buffer; the parse invocation that fills it flushes the chunk through the
callback but returns false (no completed message is reported: `read` on the
same bytes returns false), contradicting "reports success (returns a
completed message) for this chunk". -/
theorem c3_counterexample :
    (parseRun (beginState 3) [0xF0, 1, 2]).2.2.1 = false ∧
    (parseRun (beginState 3) [0xF0, 1, 2]).2.2.2 =
      [MidiEvent.flushed
        { type := SystemExclusive, channel := 0, data1 := 3, data2 := 0,
          length := 3, valid := true, sysexArray := [0xF0, 1, 0xF0] }] ∧
    (readCh 0 true ThruMode.full (beginState 3) [0xF0, 1, 2]).retval = false := by
  decide

/-- C3 (amended): whenever a sysex message in progress reaches the fixed
buffer capacity before a terminator arrives, the parse invocation that fills
the buffer flushes through the sysex callback a valid SystemExclusive message
whose logical length equals the capacity, and re-primes the parser to
continue accumulating the stream into a fresh segment (index 2, buffer
re-seeded with 0xF7 and the displaced last byte); but parse returns false for
this chunk (the chunk is delivered only via the callback, not as a completed
message reported to read). -/
theorem c3_overflow_flush (s : ParserState) (d cap : Nat)
    (hcap3 : 3 ≤ cap)
    (hlen : s.message.sysexArray.length = cap)
    (hp0 : s.pendingMessage.getD 0 0 = SystemExclusiveStart ∨
      s.pendingMessage.getD 0 0 = SystemExclusiveEnd)
    (hexp : s.pendingMessageExpectedLength = cap)
    (hidx : s.pendingMessageIndex = cap - 1)
    (hd : d < 0x80) :
    (parseByte s d).2 =
      ParseOutcome.overflowFlush
        { type := SystemExclusive, channel := 0, data1 := cap % 256,
          data2 := cap / 256 % 256, length := cap, valid := true,
          sysexArray := s.message.sysexArray.set (cap - 1) SystemExclusiveStart } ∧
    (parseByte s d).1.pendingMessageIndex = 2 ∧
    (parseByte s d).1.pendingMessageExpectedLength = cap ∧
    (parseByte s d).1.message.sysexArray.getD 0 0 = SystemExclusiveEnd ∧
    (parseByte s d).1.message.sysexArray.getD 1 0 = d ∧
    (parseByte s d).2 ≠ ParseOutcome.msgDone := by
  simp only [SystemExclusiveStart, SystemExclusiveEnd] at hp0
  have hfd : d ≠ 253 := by omega
  have hidx0 : ¬(s.pendingMessageIndex = 0) := by omega
  have hrt : ¬(d = 248 ∨ d = 250 ∨ d = 249 ∨ d = 251 ∨ d = 252 ∨ d = 254 ∨ d = 255) := by
    omega
  have hsx : ¬(d = 240 ∨ d = 247) := by omega
  have hcompl : 1 ≤ s.pendingMessageExpectedLength ∧
      s.pendingMessageExpectedLength ≤ s.pendingMessageIndex + 1 := by omega
  simp only [parseByte, Clock, Start, Tick, Continue, Stop, ActiveSensing,
    SystemReset, SystemExclusiveStart, SystemExclusiveEnd, SystemExclusive,
    Undefined_FD, InvalidType, if_neg hfd, if_neg hidx0, if_neg hrt,
    if_neg hsx, if_pos hp0, if_pos hcompl]
  rw [hidx]
  have hset : (s.message.sysexArray.set (cap - 1) d).length = cap := by
    simp [hlen]
  rw [hset]
  have hlast : (s.message.sysexArray.set (cap - 1) d).getD (cap - 1) 0 = d := by
    rw [List.getD_eq_getElem?_getD,
      List.getElem?_set_self (by rw [hlen]; omega)]
    rfl
  rw [hlast, List.set_set]
  refine ⟨rfl, trivial, hexp, ?_, ?_, by simp⟩
  · rw [List.getD_eq_getElem?_getD,
      List.getElem?_set_ne (by omega : (1 : Nat) ≠ 0),
      List.getElem?_set_self (by simp [hlen]; omega)]
    rfl
  · rw [List.getD_eq_getElem?_getD,
      List.getElem?_set_self (by simp [hlen]; omega)]
    rfl

/-- C3 witness: the amended C3 theorem instantiated at the state reached
after feeding [0xF0, 1] to a fresh parser of capacity 3, with data byte 2. -/
theorem c3_overflow_flush_witness :
    ((processBytes (beginState 3) [0xF0, 1]).1.message.sysexArray.length = 3 ∧
      (processBytes (beginState 3) [0xF0, 1]).1.pendingMessageExpectedLength = 3 ∧
      (processBytes (beginState 3) [0xF0, 1]).1.pendingMessageIndex = 2) ∧
    ((parseByte (processBytes (beginState 3) [0xF0, 1]).1 2).2 =
      ParseOutcome.overflowFlush
        { type := SystemExclusive, channel := 0, data1 := 3 % 256,
          data2 := 3 / 256 % 256, length := 3, valid := true,
          sysexArray :=
            (processBytes (beginState 3) [0xF0, 1]).1.message.sysexArray.set 2
              SystemExclusiveStart } ∧
      (parseByte (processBytes (beginState 3) [0xF0, 1]).1 2).1.pendingMessageIndex = 2 ∧
      (parseByte (processBytes (beginState 3) [0xF0, 1]).1 2).1.pendingMessageExpectedLength = 3 ∧
      (parseByte (processBytes (beginState 3) [0xF0, 1]).1 2).1.message.sysexArray.getD 0 0 =
        SystemExclusiveEnd ∧
      (parseByte (processBytes (beginState 3) [0xF0, 1]).1 2).1.message.sysexArray.getD 1 0 = 2 ∧
      (parseByte (processBytes (beginState 3) [0xF0, 1]).1 2).2 ≠ ParseOutcome.msgDone) :=
  ⟨⟨by decide, by decide, by decide⟩,
    c3_overflow_flush (processBytes (beginState 3) [0xF0, 1]).1 2 3
      (by decide) (by decide) (by decide) (by decide) (by decide) (by decide)⟩

theorem processBytes_cons (s : ParserState) (b : Nat) (rest : List Nat) :
    processBytes s (b :: rest) =
      ((processBytes (parseByte s b).1 rest).1,
        (match (parseByte s b).2 with
          | ParseOutcome.msgDone => [MidiEvent.emitted (parseByte s b).1.message]
          | ParseOutcome.overflowFlush m => [MidiEvent.flushed m]
          | ParseOutcome.errored => [MidiEvent.errCall]
          | _ => []) ++ (processBytes (parseByte s b).1 rest).2) := rfl

theorem processBytes_append (s : ParserState) (l1 l2 : List Nat) :
    processBytes s (l1 ++ l2) =
      ((processBytes (processBytes s l1).1 l2).1,
        (processBytes s l1).2 ++ (processBytes (processBytes s l1).1 l2).2) := by
  induction l1 generalizing s with
  | nil => simp [processBytes]
  | cons b t ih =>
    simp only [List.cons_append, processBytes_cons, ih, List.append_assoc]

theorem eventMessages_append (l1 l2 : List MidiEvent) :
    eventMessages (l1 ++ l2) = eventMessages l1 ++ eventMessages l2 := by
  induction l1 with
  | nil => rfl
  | cons e t ih => cases e <;> simp [eventMessages, ih]

theorem mem_eventMessages (m : MidiMessage) (evs : List MidiEvent)
    (h : m ∈ eventMessages evs) :
    MidiEvent.flushed m ∈ evs ∨ MidiEvent.emitted m ∈ evs := by
  induction evs with
  | nil => simp [eventMessages] at h
  | cons e t ih =>
    cases e with
    | emitted m' =>
      rcases List.mem_cons.mp h with h' | h'
      · exact Or.inr (by simp [h'])
      · rcases ih h' with h'' | h''
        · exact Or.inl (List.mem_cons_of_mem _ h'')
        · exact Or.inr (List.mem_cons_of_mem _ h'')
    | flushed m' =>
      rcases List.mem_cons.mp h with h' | h'
      · exact Or.inl (by simp [h'])
      · rcases ih h' with h'' | h''
        · exact Or.inl (List.mem_cons_of_mem _ h'')
        · exact Or.inr (List.mem_cons_of_mem _ h'')
    | errCall =>
      rcases ih h with h'' | h''
      · exact Or.inl (List.mem_cons_of_mem _ h'')
      · exact Or.inr (List.mem_cons_of_mem _ h'')

theorem flatPayloads_append (l1 l2 : List MidiEvent) :
    flatPayloads (l1 ++ l2) = flatPayloads l1 ++ flatPayloads l2 := by
  simp [flatPayloads, eventMessages_append]

theorem sysexPayload_of_full (m : MidiMessage) (h : m.length = m.sysexArray.length) :
    sysexPayload m = m.sysexArray := by
  rw [sysexPayload, h, List.take_length]

theorem parseByte_begin_f0 (C : Nat) (hC : 3 ≤ C) :
    parseByte (beginState C) 0xF0 =
      (sysexRunState C
        { type := InvalidType, channel := 0, data1 := 0, data2 := 0,
          length := 0, valid := false,
          sysexArray := (List.replicate C 0).set 0 0xF0 } 1,
       ParseOutcome.needMore) := by
  have hcompl : ¬(1 ≤ C ∧ C ≤ 0 + 1) := by omega
  simp [parseByte, beginState, sysexRunState, getTypeFromStatusByte,
    isChannelMessage, InvalidType, Undefined_F4, Undefined_F5, Undefined_FD,
    Start, Continue, Stop, Clock, Tick, ActiveSensing, SystemReset,
    TuneRequest, ProgramChange, AfterTouchChannel, TimeCodeQuarterFrame,
    SongSelect, NoteOn, NoteOff, ControlChange, PitchBend, AfterTouchPoly,
    SongPosition, SystemExclusiveStart, SystemExclusiveEnd, hcompl]

theorem parseByte_sysex_data (C : Nat) (msg : MidiMessage) (i d : Nat)
    (hd : d < 0x80) (h1 : 1 ≤ i) (hiC : i + 1 < C) :
    parseByte (sysexRunState C msg i) d =
      (sysexRunState C { msg with sysexArray := msg.sysexArray.set i d } (i + 1),
       ParseOutcome.needMore) := by
  have hfd : d ≠ 253 := by omega
  have hi0 : ¬(i = 0) := by omega
  have hrt : ¬(d = 248 ∨ d = 250 ∨ d = 249 ∨ d = 251 ∨ d = 252 ∨ d = 254 ∨
      d = 255) := by omega
  have hsx : ¬(d = 240 ∨ d = 247) := by omega
  have hcompl : ¬(1 ≤ C ∧ C ≤ i + 1) := by omega
  simp only [parseByte, sysexRunState, Clock, Start, Tick, Continue, Stop,
    ActiveSensing, SystemReset, SystemExclusiveStart, SystemExclusiveEnd,
    Undefined_FD, if_neg hfd, if_neg hi0, if_neg hrt, if_neg hsx,
    if_neg hcompl]
  simp [hcompl]

theorem parseByte_sysex_flush (C : Nat) (msg : MidiMessage) (d : Nat)
    (hd : d < 0x80) (hC : 3 ≤ C) (hlen : msg.sysexArray.length = C) :
    parseByte (sysexRunState C msg (C - 1)) d =
      (sysexRunState C
        { type := SystemExclusive, channel := 0, data1 := C % 256,
          data2 := C / 256 % 256, length := C, valid := true,
          sysexArray := ((msg.sysexArray.set (C - 1) 240).set 0 247).set 1 d } 2,
       ParseOutcome.overflowFlush
        { type := SystemExclusive, channel := 0, data1 := C % 256,
          data2 := C / 256 % 256, length := C, valid := true,
          sysexArray := msg.sysexArray.set (C - 1) 240 }) := by
  have hfd : d ≠ 253 := by omega
  have hi0 : ¬(C - 1 = 0) := by omega
  have hrt : ¬(d = 248 ∨ d = 250 ∨ d = 249 ∨ d = 251 ∨ d = 252 ∨ d = 254 ∨
      d = 255) := by omega
  have hsx : ¬(d = 240 ∨ d = 247) := by omega
  have hcompl : 1 ≤ C ∧ C ≤ C - 1 + 1 := by omega
  have hp0lit : ([240, 0, 0] : List Nat).getD 0 0 = 240 ∨
      ([240, 0, 0] : List Nat).getD 0 0 = 247 := Or.inl rfl
  simp only [parseByte, sysexRunState, Clock, Start, Tick, Continue, Stop,
    ActiveSensing, SystemReset, SystemExclusiveStart, SystemExclusiveEnd,
    SystemExclusive, Undefined_FD, if_neg hfd, if_neg hi0, if_neg hrt,
    if_neg hsx, if_pos hp0lit, if_pos hcompl]
  have hset : (msg.sysexArray.set (C - 1) d).length = C := by simp [hlen]
  rw [hset]
  have hlast : (msg.sysexArray.set (C - 1) d).getD (C - 1) 0 = d := by
    rw [List.getD_eq_getElem?_getD,
      List.getElem?_set_self (by rw [hlen]; omega)]
    rfl
  rw [hlast, List.set_set]

theorem parseByte_sysex_eox (C : Nat) (msg : MidiMessage) (i : Nat)
    (h1 : 1 ≤ i)
    (h0 : msg.sysexArray.getD 0 0 = 240 ∨ msg.sysexArray.getD 0 0 = 247) :
    parseByte (sysexRunState C msg i) 0xF7 =
      ({ runningStatusRX := InvalidType, pendingMessage := [0xF0, 0, 0],
         pendingMessageExpectedLength := 0, pendingMessageIndex := 0,
         message := { type := SystemExclusive, channel := 0,
                      data1 := (i + 1) % 256, data2 := (i + 1) / 256 % 256,
                      length := i + 1, valid := true,
                      sysexArray := msg.sysexArray.set i 0xF7 },
         errorParse := false },
       ParseOutcome.msgDone) := by
  have hi0 : ¬(i = 0) := by omega
  simp only [parseByte, sysexRunState, Clock, Start, Tick, Continue, Stop,
    ActiveSensing, SystemReset, SystemExclusiveStart, SystemExclusiveEnd,
    SystemExclusive, Undefined_FD, InvalidType, if_neg hi0]
  simp only [List.getD_eq_getElem?_getD] at h0
  rcases h0 with h0 | h0 <;> simp [h0]

theorem window_set_succ (l : List Nat) (i d : Nat) (h1 : 1 ≤ i) (h : i < l.length) :
    window (l.set i d) (i + 1) = window l i ++ [d] := by
  unfold window
  rw [take_set_succ l i d h,
    List.drop_append_of_le_length (by simp [List.length_take]; omega)]

theorem window_two_getD (l : List Nat) (h : 2 ≤ l.length) :
    window l 2 = [l.getD 1 0] := by
  rcases l with _ | ⟨a, _ | ⟨b, t⟩⟩
  · simp at h
  · simp at h
  · rfl

theorem flatPayloads_cons_flushed (m : MidiMessage) (evs : List MidiEvent) :
    flatPayloads (MidiEvent.flushed m :: evs) = sysexPayload m ++ flatPayloads evs := by
  simp [flatPayloads, eventMessages]

theorem sysexRun_invariant (C : Nat) (hC : 3 ≤ C) (ds : List Nat) :
    ∀ (msg : MidiMessage) (i : Nat),
      (∀ d ∈ ds, d < 0x80) →
      msg.sysexArray.length = C →
      1 ≤ i → i ≤ C - 1 →
      (msg.sysexArray.getD 0 0 = 240 ∨ msg.sysexArray.getD 0 0 = 247) →
      ∃ msg' i',
        (processBytes (sysexRunState C msg i) ds).1 = sysexRunState C msg' i' ∧
        msg'.sysexArray.length = C ∧
        1 ≤ i' ∧ i' ≤ C - 1 ∧
        (msg'.sysexArray.getD 0 0 = 240 ∨ msg'.sysexArray.getD 0 0 = 247) ∧
        (∀ e ∈ (processBytes (sysexRunState C msg i) ds).2,
          ∃ m, e = MidiEvent.flushed m ∧ m.type = 240 ∧ m.length = C ∧
            m.valid = true ∧ m.sysexArray.length = C) ∧
        (∀ x, (x ∈ ds ∨ x ∈ window msg.sysexArray i) →
          x ∈ flatPayloads (processBytes (sysexRunState C msg i) ds).2 ∨
          x ∈ window msg'.sysexArray i') ∧
        ((processBytes (sysexRunState C msg i) ds).2 = [] → i' = i + ds.length) := by
  induction ds with
  | nil =>
    intro msg i hds hlen h1 hiC h0
    refine ⟨msg, i, rfl, hlen, h1, hiC, h0, ?_, ?_, ?_⟩
    · intro e he
      simp [processBytes] at he
    · intro x hx
      rcases hx with hx | hx
      · simp at hx
      · exact Or.inr hx
    · intro _
      simp
  | cons d rest ih =>
    intro msg i hds hlen h1 hiC h0
    have hd : d < 128 := hds d (List.mem_cons_self d rest)
    have hrest : ∀ x ∈ rest, x < 128 := fun x hx => hds x (List.mem_cons_of_mem _ hx)
    by_cases hcase : i + 1 < C
    · -- the data byte is absorbed into the buffer
      have hstep := parseByte_sysex_data C msg i d hd h1 hcase
      have hmem1 : i < msg.sysexArray.length := by rw [hlen]; omega
      have hg0 : ((msg.sysexArray.set i d).getD 0 0 = 240 ∨
          (msg.sysexArray.set i d).getD 0 0 = 247) := by
        have hsame : (msg.sysexArray.set i d).getD 0 0 = msg.sysexArray.getD 0 0 := by
          rw [List.getD_eq_getElem?_getD,
            List.getElem?_set_ne (by omega : i ≠ 0), ← List.getD_eq_getElem?_getD]
        rw [hsame]
        exact h0
      obtain ⟨msg', i', heq, hlen', h1', hiC', h0', hflush, hcov, hcnt⟩ :=
        ih { msg with sysexArray := msg.sysexArray.set i d } (i + 1) hrest
          (by simp [hlen]) (by omega) (by omega) hg0
      refine ⟨msg', i', ?_, hlen', h1', hiC', h0', ?_, ?_, ?_⟩
      · rw [processBytes_cons, hstep]
        exact heq
      · rw [processBytes_cons, hstep]
        intro e he
        exact hflush e (by simpa using he)
      · intro x hx
        rw [processBytes_cons, hstep]
        have hx' : x ∈ rest ∨ x ∈ window (msg.sysexArray.set i d) (i + 1) := by
          rcases hx with hx | hx
          · rcases List.mem_cons.mp hx with rfl | hx'
            · right
              rw [window_set_succ msg.sysexArray i x h1 hmem1]
              exact List.mem_append_right _ (List.mem_singleton.mpr rfl)
            · exact Or.inl hx'
          · right
            rw [window_set_succ msg.sysexArray i d h1 hmem1]
            exact List.mem_append_left _ hx
        have := hcov x hx'
        simpa using this
      · intro hnil
        rw [processBytes_cons, hstep] at hnil
        have hnil' : (processBytes (sysexRunState C
            { msg with sysexArray := msg.sysexArray.set i d } (i + 1)) rest).2 = [] := by
          simpa using hnil
        have := hcnt hnil'
        simp only [List.length_cons]
        omega
    · -- the buffer is full: flush a chunk and re-prime
      have hieq : i = C - 1 := by omega
      subst hieq
      have hstep := parseByte_sysex_flush C msg d hd hC hlen
      have hlenF : (((msg.sysexArray.set (C - 1) 240).set 0 247).set 1 d).length = C := by
        simp [hlen]
      have hg0F : ((((msg.sysexArray.set (C - 1) 240).set 0 247).set 1 d).getD 0 0 = 240 ∨
          (((msg.sysexArray.set (C - 1) 240).set 0 247).set 1 d).getD 0 0 = 247) := by
        right
        rw [List.getD_eq_getElem?_getD,
          List.getElem?_set_ne (by omega : (1 : Nat) ≠ 0),
          List.getElem?_set_self (by simp [hlen]; omega)]
        rfl
      obtain ⟨msg', i', heq, hlen', h1', hiC', h0', hflush, hcov, hcnt⟩ :=
        ih { type := SystemExclusive, channel := 0, data1 := C % 256,
             data2 := C / 256 % 256, length := C, valid := true,
             sysexArray := ((msg.sysexArray.set (C - 1) 240).set 0 247).set 1 d } 2
          hrest hlenF (by omega) (by omega) hg0F
      have hwin2 : window (((msg.sysexArray.set (C - 1) 240).set 0 247).set 1 d) 2 = [d] := by
        rw [window_two_getD _ (by simp [hlen]; omega)]
        congr 1
        rw [List.getD_eq_getElem?_getD,
          List.getElem?_set_self (by simp [hlen]; omega)]
        rfl
      have hpayload : sysexPayload
          { type := SystemExclusive, channel := 0, data1 := C % 256,
            data2 := C / 256 % 256, length := C, valid := true,
            sysexArray := msg.sysexArray.set (C - 1) 240 } =
          msg.sysexArray.set (C - 1) 240 := by
        refine sysexPayload_of_full _ ?_
        simp [hlen]
      refine ⟨msg', i', ?_, hlen', h1', hiC', h0', ?_, ?_, ?_⟩
      · rw [processBytes_cons, hstep]
        exact heq
      · rw [processBytes_cons, hstep]
        intro e he
        rcases List.mem_cons.mp (by simpa using he) with rfl | he'
        · exact ⟨_, rfl, rfl, rfl, rfl, by simp [hlen]⟩
        · exact hflush e he'
      · intro x hx
        rw [processBytes_cons, hstep]
        have hlift : ∀ y, y ∈ flatPayloads (processBytes (sysexRunState C
              { type := SystemExclusive, channel := 0, data1 := C % 256,
                data2 := C / 256 % 256, length := C, valid := true,
                sysexArray := ((msg.sysexArray.set (C - 1) 240).set 0 247).set 1 d } 2)
              rest).2 ∨ y ∈ window msg'.sysexArray i' →
            y ∈ sysexPayload
              { type := SystemExclusive, channel := 0, data1 := C % 256,
                data2 := C / 256 % 256, length := C, valid := true,
                sysexArray := msg.sysexArray.set (C - 1) 240 } ++
              flatPayloads (processBytes (sysexRunState C
                { type := SystemExclusive, channel := 0, data1 := C % 256,
                  data2 := C / 256 % 256, length := C, valid := true,
                  sysexArray := ((msg.sysexArray.set (C - 1) 240).set 0 247).set 1 d } 2)
                rest).2 ∨ y ∈ window msg'.sysexArray i' := by
          intro y hy
          rcases hy with hy | hy
          · exact Or.inl (List.mem_append_right _ hy)
          · exact Or.inr hy
        rcases hx with hx | hx
        · rcases List.mem_cons.mp hx with rfl | hx'
          · have := hcov x (Or.inr (by rw [hwin2]; exact List.mem_singleton.mpr rfl))
            have hres := hlift x this
            simpa [flatPayloads_cons_flushed] using hres
          · have := hcov x (Or.inl hx')
            have hres := hlift x this
            simpa [flatPayloads_cons_flushed] using hres
        · -- x sits in the already-accumulated part of the buffer: it is in the
          -- flushed chunk
          have hx1 : x ∈ msg.sysexArray.take (C - 1) :=
            List.mem_of_mem_drop hx
          have hx2 : x ∈ (msg.sysexArray.set (C - 1) 240).take (C - 1) := by
            rw [take_set_ge msg.sysexArray (C - 1) (C - 1) 240 le_rfl]
            exact hx1
          have hx3 : x ∈ msg.sysexArray.set (C - 1) 240 := List.mem_of_mem_take hx2
          left
          simp only [List.singleton_append, flatPayloads_cons_flushed]
          rw [hpayload]
          exact List.mem_append_left _ hx3
      · intro hnil
        rw [processBytes_cons, hstep] at hnil
        simp at hnil

/-- C2: for every sysex buffer capacity C ≥ 3, feeding a fresh parser 0xF0,
then C+2 data bytes (each < 0x80), then 0xF7, yields at least two
SystemExclusive message emissions (chunks flushed through the callback plus
the final completed message), each of logical length at most C, such that
every one of the C+2 received data bytes appears in the concatenation of the
emitted chunks' payloads. -/
theorem c2_sysex_chunking (C : Nat) (ds : List Nat)
    (hC : 3 ≤ C) (hdslen : ds.length = C + 2) (hds : ∀ d ∈ ds, d < 0x80) :
    2 ≤ (eventMessages (processBytes (beginState C) (0xF0 :: (ds ++ [0xF7]))).2).length ∧
    (∀ m ∈ eventMessages (processBytes (beginState C) (0xF0 :: (ds ++ [0xF7]))).2,
      m.type = SystemExclusive ∧ m.length ≤ C) ∧
    (∀ d ∈ ds,
      d ∈ flatPayloads (processBytes (beginState C) (0xF0 :: (ds ++ [0xF7]))).2) := by
  have hlen0 : ((List.replicate C 0).set 0 (0xF0 : Nat)).length = C := by simp
  have h00 : (((List.replicate C 0).set 0 (0xF0 : Nat)).getD 0 0 = 240 ∨
      ((List.replicate C 0).set 0 (0xF0 : Nat)).getD 0 0 = 247) := by
    left
    rw [List.getD_eq_getElem?_getD, List.getElem?_set_self (by simp; omega)]
    rfl
  obtain ⟨msg', i', heq, hlen', h1', hiC', h0', hflush, hcov, hcnt⟩ :=
    sysexRun_invariant C hC ds
      { type := InvalidType, channel := 0, data1 := 0, data2 := 0,
        length := 0, valid := false,
        sysexArray := (List.replicate C 0).set 0 0xF0 } 1
      hds hlen0 le_rfl (by omega) h00
  have heox := parseByte_sysex_eox C msg' i' h1' h0'
  have hev2 : (processBytes (beginState C) (0xF0 :: (ds ++ [0xF7]))).2 =
      (processBytes (sysexRunState C
        { type := InvalidType, channel := 0, data1 := 0, data2 := 0,
          length := 0, valid := false,
          sysexArray := (List.replicate C 0).set 0 0xF0 } 1) ds).2 ++
      [MidiEvent.emitted
        { type := SystemExclusive, channel := 0, data1 := (i' + 1) % 256,
          data2 := (i' + 1) / 256 % 256, length := i' + 1, valid := true,
          sysexArray := msg'.sysexArray.set i' 0xF7 }] := by
    rw [processBytes_cons, parseByte_begin_f0 C hC]
    dsimp only
    rw [processBytes_append, heq, processBytes_cons, heox]
    dsimp only
    simp [processBytes]
  refine ⟨?_, ?_, ?_⟩
  · rw [hev2, eventMessages_append]
    have h1le : 1 ≤ (eventMessages (processBytes (sysexRunState C
        { type := InvalidType, channel := 0, data1 := 0, data2 := 0,
          length := 0, valid := false,
          sysexArray := (List.replicate C 0).set 0 0xF0 } 1) ds).2).length := by
      rcases hevs : (processBytes (sysexRunState C
          { type := InvalidType, channel := 0, data1 := 0, data2 := 0,
            length := 0, valid := false,
            sysexArray := (List.replicate C 0).set 0 0xF0 } 1) ds).2 with _ | ⟨e, t⟩
      · exfalso
        have := hcnt hevs
        omega
      · obtain ⟨m, hm, -, -, -, -⟩ := hflush e (by rw [hevs]; exact List.mem_cons_self e t)
        subst hm
        simp [eventMessages]
    simp only [List.length_append]
    have hone : (eventMessages [MidiEvent.emitted
        { type := SystemExclusive, channel := 0, data1 := (i' + 1) % 256,
          data2 := (i' + 1) / 256 % 256, length := i' + 1, valid := true,
          sysexArray := msg'.sysexArray.set i' 0xF7 }]).length = 1 := rfl
    omega
  · rw [hev2, eventMessages_append]
    intro m hm
    rcases List.mem_append.mp hm with hm | hm
    · rcases mem_eventMessages m _ hm with hf | hf
      · obtain ⟨m'', hfe, ht, hl, -, -⟩ := hflush _ hf
        injection hfe with h12
        subst h12
        exact ⟨ht.trans rfl, by omega⟩
      · obtain ⟨m'', hfe, -, -, -, -⟩ := hflush _ hf
        simp at hfe
    · have hm' : m =
          { type := SystemExclusive, channel := 0, data1 := (i' + 1) % 256,
            data2 := (i' + 1) / 256 % 256, length := i' + 1, valid := true,
            sysexArray := msg'.sysexArray.set i' 0xF7 } := by
        simpa [eventMessages] using hm
      subst hm'
      refine ⟨rfl, ?_⟩
      show i' + 1 ≤ C
      omega
  · intro d hdmem
    rw [hev2, flatPayloads_append]
    rcases hcov d (Or.inl hdmem) with hl | hr
    · exact List.mem_append_left _ hl
    · refine List.mem_append_right _ ?_
      have hmem : d ∈ sysexPayload
          { type := SystemExclusive, channel := 0, data1 := (i' + 1) % 256,
            data2 := (i' + 1) / 256 % 256, length := i' + 1, valid := true,
            sysexArray := msg'.sysexArray.set i' 0xF7 } := by
        show d ∈ (msg'.sysexArray.set i' 0xF7).take (i' + 1)
        rw [take_set_succ msg'.sysexArray i' 0xF7 (by rw [hlen']; omega)]
        exact List.mem_append_left _ (List.mem_of_mem_drop hr)
      simpa [flatPayloads, eventMessages] using hmem

/-- C2 witness: the C2 theorem instantiated at capacity 3 with the five data
bytes [1, 2, 3, 4, 5]. -/
theorem c2_sysex_chunking_witness :
    ((3 : Nat) ≤ 3 ∧ ([1, 2, 3, 4, 5] : List Nat).length = 3 + 2 ∧
      ∀ d ∈ ([1, 2, 3, 4, 5] : List Nat), d < 0x80) ∧
    (2 ≤ (eventMessages
        (processBytes (beginState 3) (0xF0 :: ([1, 2, 3, 4, 5] ++ [0xF7]))).2).length ∧
      (∀ m ∈ eventMessages
          (processBytes (beginState 3) (0xF0 :: ([1, 2, 3, 4, 5] ++ [0xF7]))).2,
        m.type = SystemExclusive ∧ m.length ≤ 3) ∧
      (∀ d ∈ ([1, 2, 3, 4, 5] : List Nat),
        d ∈ flatPayloads
          (processBytes (beginState 3) (0xF0 :: ([1, 2, 3, 4, 5] ++ [0xF7]))).2)) :=
  ⟨⟨by decide, by decide, by decide⟩,
    c2_sysex_chunking 3 [1, 2, 3, 4, 5] (by decide) (by decide) (by decide)⟩

end PianoLEDMidi
